import Mathlib

/-!
Verification of the moneybird-mcp-server core against its specification.

The development shallowly embeds the HTTP request/retry engine
(`MoneybirdClient.request` in the retrying client variant), the path
normalization, the resource operations (`listProjects`, `listContacts`,
`getProject`, `getProduct`, `getFinancialAccount`, `getTimeEntry`), the
tool-dispatch handler (tool registry lookup, error envelope, `list_contacts`
chunking, `moneybird_request` body parsing) and the lazily-constructed client
singleton (`getClient` / `resetClient` / `setClient`).

Conventions of the embedding:
- The HTTP boundary is abstracted as a per-attempt outcome stream
  `env : Nat -> Outcome`; attempt `k` of the retry loop observes `env k`.
- JavaScript errors are values of `JsError`; the Moneybird typed error
  classes are represented by the `mbKind` tag (`none` = plain `Error`).
- JavaScript truthiness of optional strings, numbers and booleans is modelled
  by `truthyStr`, `truthyNat`, `truthyBool` (empty string, `0` and `false`
  are falsy).
- `JSON.stringify` and `JSON.parse` are external library collaborators and
  are passed in as function parameters where a handler uses them.
- `Math.ceil(M / k)` on natural numbers is translated as `(M + k - 1) / k`.
- `Math.pow(2, 2 - retries)` is computed over the rationals with an integer
  exponent, exactly as JavaScript computes it over floats for small values.
-/

/-- JSON-like values carried in request/response bodies. -/
inductive JsValue where
  | null : JsValue
  | bool (b : Bool) : JsValue
  | num (n : Int) : JsValue
  | str (s : String) : JsValue
  | arr (elems : List JsValue) : JsValue
  | obj (fields : List (String × JsValue)) : JsValue

/-- Tags for the Moneybird typed error classes of `common/errors.ts`.
`generic` is the base class `MoneybirdError` itself. -/
inductive MbKind where
  | generic : MbKind
  | validation : MbKind
  | notFound : MbKind
  | authentication : MbKind
  | permission : MbKind
  | rateLimit : MbKind
  | conflict : MbKind
deriving DecidableEq

/-- The `error.response` object of an axios failure: HTTP status plus the
(already serialized) response body when present. -/
structure HttpResponse where
  status : Nat
  body : Option String
deriving DecidableEq

/-- A JavaScript error value: its message, whether it is an instance of one
of the Moneybird error classes (`mbKind = none` means a plain `Error`), the
attached axios response when the failure was an HTTP one, and the rate-limit
reset timestamp (already in ISO form) when present. -/
structure JsError where
  message : String
  mbKind : Option MbKind
  response : Option HttpResponse
  resetAt : Option String
deriving DecidableEq

/-- `isMoneybirdError` from `common/errors.ts`: an instanceof check against
the `MoneybirdError` class hierarchy. -/
def isMoneybirdError (e : JsError) : Bool :=
  e.mbKind.isSome

/-- `error.response?.status` : the HTTP status of a failure, when it has
a response at all. -/
def errorStatus (e : JsError) : Option Nat :=
  e.response.map (fun r => r.status)

/-- JavaScript truthiness of an optional string (`undefined` and `""` are
falsy). -/
def truthyStr : Option String → Bool
  | some s => s != ""
  | none => false

/-- JavaScript truthiness of an optional number (`undefined` and `0` are
falsy; the embedded numbers are naturals). -/
def truthyNat : Option Nat → Bool
  | some n => n != 0
  | none => false

/-- JavaScript truthiness of an optional boolean (`undefined` and `false`
are falsy). -/
def truthyBool : Option Bool → Bool
  | some b => b
  | none => false

/-- The guard of `MoneybirdClient.request` (retrying variant): a client
error, i.e. a present `error.response?.status` (truthy, hence nonzero) in
`[400, 500)` other than `429`, is never retried. -/
def isTerminalClientError (e : JsError) : Bool :=
  match e.response with
  | some r =>
      r.status != 0 && decide (400 ≤ r.status) && decide (r.status < 500)
        && r.status != 429
  | none => false

/-- Outcome of one HTTP attempt at the axios boundary. -/
inductive Outcome where
  | success (v : JsValue) : Outcome
  | failure (e : JsError) : Outcome

/-- What one `request` call does observably: its final result, the number of
HTTP attempts it made, and the backoff delays (in milliseconds) it slept
between attempts, in order. -/
structure RequestTrace where
  result : Except JsError JsValue
  attempts : Nat
  delays : List ℚ

/-- The default retry budget of `MoneybirdClient.request` (`retries = 2`). -/
def defaultRetries : Nat := 2

/-- The exponential backoff of the retry loop:
`1000 * Math.pow(2, 2 - retries)` milliseconds, computed from the number of
retries still remaining before this sleep. -/
def retryDelay (retries : Nat) : ℚ :=
  1000 * (2 : ℚ) ^ ((2 : ℤ) - (retries : ℤ))

/-- The try/catch retry loop of `MoneybirdClient.request`: attempt `k` of the
stream `env`; on failure, rethrow immediately for terminal client errors,
otherwise sleep `retryDelay retries` and recurse with one retry fewer while
any remain, and rethrow the last failure once the budget is exhausted. -/
def requestLoop (env : Nat → Outcome) (attemptIdx : Nat) (retries : Nat) :
    RequestTrace :=
  match env attemptIdx with
  | Outcome.success v => ⟨Except.ok v, 1, []⟩
  | Outcome.failure e =>
      if isTerminalClientError e then ⟨Except.error e, 1, []⟩
      else
        match retries with
        | 0 => ⟨Except.error e, 1, []⟩
        | r + 1 =>
            let rest := requestLoop env (attemptIdx + 1) r
            ⟨rest.result, rest.attempts + 1, retryDelay (r + 1) :: rest.delays⟩

/-- The HTTP methods accepted by `request`. -/
inductive HttpMethod where
  | get : HttpMethod
  | post : HttpMethod
  | put : HttpMethod
  | delete : HttpMethod
deriving DecidableEq

/-- The error thrown by the non-GET guard of the retrying
`MoneybirdClient.request` variant (`throw error` on an undefined binding,
i.e. a `ReferenceError`, before any HTTP attempt). -/
def methodGuardError : JsError :=
  ⟨"error is not defined", none, none, none⟩

/-- `MoneybirdClient.request` (retrying variant): non-GET methods are
rejected before any HTTP attempt; GET enters the retry loop at attempt 0
with the given retry budget. -/
def request (method : HttpMethod) (env : Nat → Outcome) (retries : Nat) :
    RequestTrace :=
  match method with
  | HttpMethod.get => requestLoop env 0 retries
  | _ => ⟨Except.error methodGuardError, 0, []⟩

/-- `path.startsWith('/')`: whether the first character is a slash. -/
def startsWithSlash (s : String) : Bool :=
  match s.data with
  | [] => false
  | c :: _ => c == '/'

/-- The path normalization of `MoneybirdClient.request`:
`path.startsWith('/') ? path.substring(1) : path`. -/
def normalizedPath (path : String) : String :=
  if startsWithSlash path then path.drop 1 else path

/-- The request URL built by `MoneybirdClient.request`:
`/${administrationId}/${normalizedPath}`. -/
def requestUrl (administrationId : String) (path : String) : String :=
  "/" ++ administrationId ++ "/" ++ normalizedPath path


/-- A Moneybird project as the collection-scan operations see it. -/
structure Project where
  id : String
  state : String
deriving DecidableEq

/-- A Moneybird product. -/
structure Product where
  id : String
deriving DecidableEq

/-- A Moneybird financial account. -/
structure FinancialAccount where
  id : String
deriving DecidableEq

/-- A Moneybird time entry. -/
structure TimeEntry where
  id : String
deriving DecidableEq

/-- The validated option bag of `listProjects` (`ListProjectsSchema`). -/
structure ProjectOptions where
  page : Option Nat
  perPage : Option Nat
  state : Option String
deriving DecidableEq

/-- The result of a `list` operation: the plain (filter-applied) item list,
or the paginated record with `page`, `perPage`, `totalCount`, `totalPages`. -/
inductive ListResult (α : Type) where
  | plain (items : List α) : ListResult α
  | paginated (items : List α) (page perPage totalCount totalPages : Nat) :
      ListResult α
deriving DecidableEq

/-- The state filter of `listProjects`:
`if (options?.state && options.state !== 'all')` keep only projects whose
`state` field equals the option (truthiness: the empty string is falsy). -/
def filterProjectsByState (state : Option String) (projects : List Project) :
    List Project :=
  match state with
  | some s =>
      if s != "" && s != "all" then
        projects.filter (fun proj => proj.state == s)
      else projects
  | none => projects

/-- `listProjects`: fetch the collection (given here as `projects`), apply
the state filter, then slice client-side when both `page` and `perPage` are
truthy: `slice((page-1)*perPage, (page-1)*perPage + perPage)` with
`totalPages = Math.ceil(filtered.length / perPage)`. -/
def listProjects (options : ProjectOptions) (projects : List Project) :
    ListResult Project :=
  let filteredProjects := filterProjectsByState options.state projects
  match options.page, options.perPage with
  | some page, some perPage =>
      if page != 0 && perPage != 0 then
        let startIndex := (page - 1) * perPage
        ListResult.paginated ((filteredProjects.drop startIndex).take perPage)
          page perPage filteredProjects.length
          ((filteredProjects.length + perPage - 1) / perPage)
      else ListResult.plain filteredProjects
  | _, _ => ListResult.plain filteredProjects

/-- A Moneybird contact with the fields that the `list_contacts` formatter
keeps, plus a `notes` field standing for the remaining payload it drops. -/
structure Contact where
  id : String
  company_name : Option String
  firstname : Option String
  lastname : Option String
  email : Option String
  phone : Option String
  notes : Option String
deriving DecidableEq

/-- The projection applied by the `list_contacts` tool handler:
`contacts.map(contact => ({id, company_name, firstname, lastname, email,
phone}))`. -/
structure FormattedContact where
  id : String
  company_name : Option String
  firstname : Option String
  lastname : Option String
  email : Option String
  phone : Option String
deriving DecidableEq

/-- Formats one contact for `list_contacts` output (keeps six fields). -/
def formatContact (c : Contact) : FormattedContact :=
  ⟨c.id, c.company_name, c.firstname, c.lastname, c.email, c.phone⟩

/-- The validated option bag of `listContacts` (`ListContactsSchema`). -/
structure ContactOptions where
  page : Option Nat
  perPage : Option Nat
  query : Option String
  filter : Option String
  include_archived : Option Bool
  todo : Option String
deriving DecidableEq

/-- One optional numeric query parameter: added (as `String(v)`) when the
value is supplied and truthy. -/
def natParam (key : String) : Option Nat → List (String × String)
  | some n => if n != 0 then [(key, toString n)] else []
  | none => []

/-- One optional string query parameter: added verbatim when the value is
supplied and truthy. -/
def strParam (key : String) : Option String → List (String × String)
  | some s => if s != "" then [(key, s)] else []
  | none => []

/-- One optional boolean query parameter: added (as `String(v)`) when the
value is supplied and truthy, i.e. only for `true`. -/
def boolParam (key : String) : Option Bool → List (String × String)
  | some b => if b then [(key, "true")] else []
  | none => []

/-- The `params` record built by the filter branch of `listContacts`, in
insertion order: `page`, `per_page`, `filter`, `query`, `include_archived`,
`todo`, each only when truthy. (The later `URLSearchParams` percent-encoding
of this list is abstracted away; the list holds the decoded values.) -/
def buildFilterParams (options : ContactOptions) : List (String × String) :=
  natParam "page" options.page ++ natParam "per_page" options.perPage
    ++ strParam "filter" options.filter ++ strParam "query" options.query
    ++ boolParam "include_archived" options.include_archived
    ++ strParam "todo" options.todo

/-- The HTTP call issued by the filter branch of `listContacts`:
`client.request('get', 'contacts/filter?' + queryString)`, kept here as the
method, the endpoint and the decoded query parameters. -/
structure FilterRequest where
  method : String
  endpoint : String
  params : List (String × String)
deriving DecidableEq

/-- The result of `listContacts`: the filter-endpoint record
`{contacts, filtered: true, filterCriteria}` (which also remembers the
request it issued), or the client-side paginated record, or the plain
record. -/
inductive ContactsResult where
  | filteredRes (req : FilterRequest) (contacts : List Contact)
      (filtered : Bool) (filterCriteria : ContactOptions) : ContactsResult
  | paginatedRes (contacts : List Contact)
      (page perPage totalCount totalPages : Nat) : ContactsResult
  | plainRes (contacts : List Contact) : ContactsResult
deriving DecidableEq

/-- `listContacts`: when any of `filter`, `query`, `include_archived`,
`todo` is truthy, bypass the plain endpoint and issue a GET to
`contacts/filter` with the serialized parameters, returning
`{contacts, filtered: true, filterCriteria: {...options}}`; otherwise fetch
the plain collection (given here as `allContacts`) and paginate client-side
exactly as `listProjects` does. `filterEndpoint` is the remote boundary for
the filter call. -/
def listContacts (options : ContactOptions) (allContacts : List Contact)
    (filterEndpoint : List (String × String) → List Contact) :
    ContactsResult :=
  if truthyStr options.filter || truthyStr options.query
      || truthyBool options.include_archived || truthyStr options.todo then
    let params := buildFilterParams options
    ContactsResult.filteredRes ⟨"get", "contacts/filter", params⟩
      (filterEndpoint params) true options
  else
    match options.page, options.perPage with
    | some page, some perPage =>
        if page != 0 && perPage != 0 then
          let startIndex := (page - 1) * perPage
          ContactsResult.paginatedRes
            ((allContacts.drop startIndex).take perPage)
            page perPage allContacts.length
            ((allContacts.length + perPage - 1) / perPage)
        else ContactsResult.plainRes allContacts
    | _, _ => ContactsResult.plainRes allContacts

/-- The plain `Error` thrown by `getProject` when the scan finds nothing. -/
def projectNotFoundError (id : String) : JsError :=
  ⟨"Project with ID " ++ id ++ " not found", none, none, none⟩

/-- `getProject`: fetch the whole collection, scan it for the first project
whose `id` matches, and throw a plain `Error` when there is none. -/
def getProject (id : String) (projects : List Project) :
    Except JsError Project :=
  match projects.find? (fun proj => proj.id == id) with
  | some proj => Except.ok proj
  | none => Except.error (projectNotFoundError id)

/-- The plain `Error` thrown by `getProduct` when the scan finds nothing. -/
def productNotFoundError (id : String) : JsError :=
  ⟨"Product with ID " ++ id ++ " not found", none, none, none⟩

/-- `getProduct`: collection scan, as `getProject`. -/
def getProduct (id : String) (products : List Product) :
    Except JsError Product :=
  match products.find? (fun prod => prod.id == id) with
  | some prod => Except.ok prod
  | none => Except.error (productNotFoundError id)

/-- The plain `Error` thrown by `getFinancialAccount` on a failed scan. -/
def financialAccountNotFoundError (id : String) : JsError :=
  ⟨"Financial account with ID " ++ id ++ " not found", none, none, none⟩

/-- `getFinancialAccount`: collection scan, as `getProject`. -/
def getFinancialAccount (id : String) (accounts : List FinancialAccount) :
    Except JsError FinancialAccount :=
  match accounts.find? (fun acc => acc.id == id) with
  | some acc => Except.ok acc
  | none => Except.error (financialAccountNotFoundError id)

/-- The plain `Error` thrown by `getTimeEntry` on a failed scan. -/
def timeEntryNotFoundError (id : String) : JsError :=
  ⟨"Time entry with ID " ++ id ++ " not found", none, none, none⟩

/-- `getTimeEntry`: collection scan, as `getProject`. -/
def getTimeEntry (id : String) (entries : List TimeEntry) :
    Except JsError TimeEntry :=
  match entries.find? (fun entry => entry.id == id) with
  | some entry => Except.ok entry
  | none => Except.error (timeEntryNotFoundError id)

/-- The inner chunking loop of `chunkResponse`:
`for (i = 0; i < data.length; i += maxSize) push(data.slice(i, i+maxSize))`
(never entered with `maxSize = 0`; that case would not terminate in the
source either). -/
def chunkPieces {α : Type} (maxSize : Nat) (l : List α) : List (List α) :=
  if h1 : maxSize = 0 then []
  else if h2 : l.isEmpty then []
  else l.take maxSize :: chunkPieces maxSize (l.drop maxSize)
termination_by l.length
decreasing_by
  simp only [List.length_drop]
  have hl : 0 < l.length := by
    cases l with
    | nil => simp at h2
    | cons a t => simp
  omega

/-- `chunkResponse(data, maxSize)`: an array of at most `maxSize` items is
returned whole as a single chunk, a longer one is cut into pieces of
`maxSize`. -/
def chunkResponse {α : Type} (responseData : List α) (maxSize : Nat) :
    List (List α) :=
  if responseData.length ≤ maxSize then [responseData]
  else chunkPieces maxSize responseData

/-- The `{content: [{type: "text", text}], isError?}` envelope a tool call
returns: the text blocks and the error flag (absent means `false`). -/
structure CallToolResult where
  content : List String
  isError : Bool
deriving DecidableEq

/-- The truncation message template of the `list_contacts` tool handler,
grouped to the right so that each interpolated fragment is syntactically a
suffix of the remainder. -/
def truncNotice (total : Nat) (shown : Nat) (body : String) : String :=
  "Retrieved " ++ (toString total ++ (" contacts. Showing first "
    ++ (toString shown ++ (":\n\n" ++ (body
    ++ "\n\n(Response truncated for stability. Use pagination to see more.)")))))

/-- The `list_contacts` case of the `CallToolRequestSchema` handler: map the
fetched contacts through the six-field formatter, chunk at threshold 50, and
return either the full pretty-printed list or the first chunk wrapped in the
truncation notice. `stringify` stands for `JSON.stringify(-, null, 2)`. -/
def handleListContacts (contacts : List Contact)
    (stringify : List FormattedContact → String) : CallToolResult :=
  let formattedContacts := contacts.map formatContact
  let chunks := chunkResponse formattedContacts 50
  if 1 < chunks.length then
    ⟨[truncNotice formattedContacts.length (chunks.headD []).length
        (stringify (chunks.headD []))], false⟩
  else
    ⟨[stringify formattedContacts], false⟩

/-- Opportunistic JSON parsing of a string body in the `moneybird_request`
tool handler: a string is parsed (`JSON.parse`) and replaced by the parse
result when parsing succeeds, kept as the raw string otherwise; any
non-string body passes through untouched. `parseJson` stands for
`JSON.parse` (`none` = the parse threw). -/
def processRequestData (parseJson : String → Option JsValue)
    (reqData : Option JsValue) : Option JsValue :=
  match reqData with
  | some (JsValue.str s) =>
      match parseJson s with
      | some parsed => some parsed
      | none => some (JsValue.str s)
  | other => other

/-- The `moneybird_request` case of the tool handler: the argument triple it
forwards to `moneybirdClient.request(method, path, processedData)`. -/
def handleMoneybirdRequest (parseJson : String → Option JsValue)
    (method : HttpMethod) (path : String) (reqData : Option JsValue) :
    HttpMethod × String × Option JsValue :=
  (method, path, processRequestData parseJson reqData)

/-- The names of the cases of the tool-dispatch switch (the fixed tool
registry of the `CallToolRequestSchema` handler). -/
def toolNames : List String :=
  ["list_contacts", "get_contact", "list_sales_invoices",
   "get_sales_invoice", "list_financial_accounts", "list_products",
   "list_projects", "list_time_entries", "moneybird_request",
   "moneybird_assistant"]

/-- `formatMoneybirdError`: the readable rendering of a Moneybird typed
error, with the rate-limit override carrying the ISO reset timestamp. -/
def formatMoneybirdError (e : JsError) : String :=
  let base := "Moneybird API Error: " ++ e.message
  let base :=
    match e.response with
    | some r =>
        let withStatus := base ++ "\nStatus: " ++ toString r.status
        match r.body with
        | some d => withStatus ++ "\nDetails: " ++ d
        | none => withStatus
    | none => base
  match e.mbKind with
  | some MbKind.rateLimit =>
      let m := "Rate Limit Exceeded: " ++ e.message
      match e.resetAt with
      | some iso => m ++ "\nResets at: " ++ iso
      | none => m
  | _ => base

/-- The catch block of the `CallToolRequestSchema` handler: start from
`Failed to execute name: message`, replace it wholesale for Moneybird typed
errors, and append the response details otherwise when present. -/
def formatToolError (toolName : String) (e : JsError) : String :=
  if isMoneybirdError e then formatMoneybirdError e
  else
    match e.response with
    | some r =>
        match r.body with
        | some d =>
            "Failed to execute " ++ toolName ++ ": " ++ e.message
              ++ "\nDetails: " ++ d
        | none => "Failed to execute " ++ toolName ++ ": " ++ e.message
    | none => "Failed to execute " ++ toolName ++ ": " ++ e.message

/-- The error thrown by the default case of the dispatch switch. -/
def toolNotFoundError (toolName : String) : JsError :=
  ⟨"Tool not found: " ++ toolName, none, none, none⟩

/-- The `CallToolRequestSchema` handler around one tool invocation: an
unknown name throws `Tool not found`, a known name runs its case (`runTool`
is that case's outcome: the success text or the error it threw), and the
surrounding try/catch converts every thrown error into a one-block text
envelope with `isError: true`. -/
def callToolHandler (toolName : String) (runTool : Except JsError String) :
    CallToolResult :=
  let outcome : Except JsError String :=
    if toolName ∈ toolNames then runTool
    else Except.error (toolNotFoundError toolName)
  match outcome with
  | Except.ok text => ⟨[text], false⟩
  | Except.error e => ⟨[formatToolError toolName e], true⟩

/-- The `MoneybirdClient` instance state: credentials fixed at construction
plus the connection timeout (default 30000 ms). -/
structure MoneybirdClient where
  apiToken : String
  administrationId : String
  timeout : Nat
deriving DecidableEq

/-- The optional credential parameters accepted by `getClient`. -/
structure ClientParams where
  moneybird_api_token : Option String
  moneybird_administration_id : Option String
deriving DecidableEq

/-- The two credential environment variables `getClient` falls back to. -/
structure ProcessEnv where
  apiTokenVar : Option String
  administrationIdVar : Option String
deriving DecidableEq

/-- JavaScript `a || b` on optional strings: the left operand when truthy,
the right one otherwise. -/
def jsOr (a b : Option String) : Option String :=
  if truthyStr a then a else b

/-- `getClient`: return the module-level singleton when it exists (state
passed in and out explicitly here); otherwise resolve each credential as
`params?.x || process.env.X`, throw when a resolved credential is falsy, and
construct and store the instance. -/
def getClient (env : ProcessEnv) (params : Option ClientParams)
    (clientInstance : Option MoneybirdClient) :
    Except JsError (MoneybirdClient × Option MoneybirdClient) :=
  match clientInstance with
  | some inst => Except.ok (inst, some inst)
  | none =>
      let apiToken :=
        jsOr (params.bind (fun pr => pr.moneybird_api_token)) env.apiTokenVar
      let administrationId :=
        jsOr (params.bind (fun pr => pr.moneybird_administration_id))
          env.administrationIdVar
      if truthyStr apiToken = false then
        Except.error
          ⟨"MONEYBIRD_API_TOKEN (or moneybird_api_token param) is required",
            none, none, none⟩
      else if truthyStr administrationId = false then
        Except.error
          ⟨"MONEYBIRD_ADMINISTRATION_ID (or moneybird_administration_id param) is required",
            none, none, none⟩
      else
        let inst : MoneybirdClient :=
          ⟨apiToken.getD "", administrationId.getD "", 30000⟩
        Except.ok (inst, some inst)

/-- `resetClient`: clears the singleton. -/
def resetClient (_clientInstance : Option MoneybirdClient) :
    Option MoneybirdClient :=
  none

/-- `setClient`: overrides the singleton with the given instance. -/
def setClient (inst : MoneybirdClient)
    (_clientInstance : Option MoneybirdClient) : Option MoneybirdClient :=
  some inst

/-- The retryable failure classes named by the spec: no HTTP status at all,
status exactly 429, or status at least 500. -/
def retryableStatus (e : JsError) : Prop :=
  errorStatus e = none ∨ errorStatus e = some 429
    ∨ ∃ s, errorStatus e = some s ∧ 500 ≤ s

/-- Concrete 404 failure used to witness the no-retry behaviour. -/
def c1Error : JsError :=
  ⟨"Request failed with status code 404", none, some ⟨404, none⟩, none⟩

/-- An attempt stream that always fails with the 404 error. -/
def c1Env : Nat → Outcome := fun _ => Outcome.failure c1Error

/-- Concrete 5xx failure (one per attempt index) used to witness the retry
exhaustion behaviour. -/
def c2Error (n : Nat) : JsError :=
  ⟨"transient failure " ++ toString n, none, some ⟨500 + n, none⟩, none⟩

/-- An attempt stream whose attempt `n` fails with `c2Error n`. -/
def c2Env : Nat → Outcome := fun n => Outcome.failure (c2Error n)

/-- A retryable failure is not caught by the terminal-client-error guard. -/
theorem retryable_not_terminal (e : JsError) (h : retryableStatus e) :
    isTerminalClientError e = false := by
  unfold retryableStatus errorStatus at h
  unfold isTerminalClientError
  cases hr : e.response with
  | none => rfl
  | some r =>
      rw [hr] at h
      simp only [Option.map_some', Option.some.injEq, reduceCtorEq,
        false_or] at h
      rw [← Bool.not_eq_true]
      simp only [Bool.and_eq_true, bne_iff_ne, ne_eq, decide_eq_true_eq]
      rcases h with h | ⟨s, hs, h500⟩
      · omega
      · omega

/-- The retry loop makes at most `retries + 1` attempts, whatever the
attempt outcomes are. -/
theorem requestLoop_attempts_le (retries : Nat) (env : Nat → Outcome)
    (k : Nat) : (requestLoop env k retries).attempts ≤ retries + 1 := by
  induction retries generalizing k with
  | zero =>
      unfold requestLoop
      cases h : env k with
      | success v => simp
      | failure e =>
          by_cases ht : isTerminalClientError e
          · simp [ht]
          · simp [ht]
  | succ r ih =>
      unfold requestLoop
      cases h : env k with
      | success v => simp
      | failure e =>
          by_cases ht : isTerminalClientError e
          · simp [ht]
          · simp only [ht, Bool.false_eq_true, if_false]
            have := ih (k + 1)
            omega

/-- Claim C1: an HTTP failure whose status code lies in `[400, 500)` and is
not 429 makes `request` rethrow it after exactly one attempt, with no
backoff sleep, regardless of the remaining retry budget. -/
theorem request_client_error_single_attempt
    (env : Nat → Outcome) (e : JsError) (s : Nat) (retries : Nat)
    (henv : env 0 = Outcome.failure e)
    (hs : errorStatus e = some s)
    (h400 : 400 ≤ s) (h500 : s < 500) (h429 : s ≠ 429) :
    request HttpMethod.get env retries = ⟨Except.error e, 1, []⟩ := by
  have hterm : isTerminalClientError e = true := by
    unfold errorStatus at hs
    unfold isTerminalClientError
    cases hr : e.response with
    | none => rw [hr] at hs; simp at hs
    | some r =>
        rw [hr] at hs
        simp only [Option.map_some', Option.some.injEq] at hs
        simp only [Bool.and_eq_true, bne_iff_ne, ne_eq, decide_eq_true_eq]
        omega
  show requestLoop env 0 retries = _
  unfold requestLoop
  rw [henv]
  simp [hterm]

/-- Witness for C1: a 404 failure is rethrown after a single attempt under
the default budget of 2 retries. -/
theorem request_client_error_single_attempt_witness :
    request HttpMethod.get c1Env 2 = ⟨Except.error c1Error, 1, []⟩ :=
  request_client_error_single_attempt c1Env c1Error 404 2 rfl rfl
    (by decide) (by decide) (by decide)

/-- Claim C2: when every attempt fails retryably (no status, 429, or ≥ 500),
`request` under the default budget of 2 retries makes exactly 3 attempts,
sleeping 1000 ms then 2000 ms (`retryDelay` is 1000·2^(2−retriesRemaining)),
and rethrows the last failure unchanged; and no outcome stream can make it
exceed 3 attempts. -/
theorem request_retry_exhaustion
    (env : Nat → Outcome) (e0 e1 e2 : JsError)
    (henv0 : env 0 = Outcome.failure e0)
    (henv1 : env 1 = Outcome.failure e1)
    (henv2 : env 2 = Outcome.failure e2)
    (hr0 : retryableStatus e0) (hr1 : retryableStatus e1)
    (hr2 : retryableStatus e2) :
    request HttpMethod.get env defaultRetries
      = ⟨Except.error e2, 3, [1000, 2000]⟩
    ∧ retryDelay 2 = 1000 ∧ retryDelay 1 = 2000
    ∧ ∀ env2 : Nat → Outcome,
        (request HttpMethod.get env2 defaultRetries).attempts ≤ 3 := by
  have t0 := retryable_not_terminal e0 hr0
  have t1 := retryable_not_terminal e1 hr1
  have t2 := retryable_not_terminal e2 hr2
  have hd2 : retryDelay 2 = 1000 := by norm_num [retryDelay]
  have hd1 : retryDelay 1 = 2000 := by norm_num [retryDelay]
  refine ⟨?_, hd2, hd1, ?_⟩
  · have s2 : requestLoop env 2 0 = ⟨Except.error e2, 1, []⟩ := by
      unfold requestLoop
      rw [henv2]
      simp [t2]
    have s1 : requestLoop env 1 1 = ⟨Except.error e2, 2, [retryDelay 1]⟩ := by
      unfold requestLoop
      rw [henv1]
      simp [t1, s2]
    show requestLoop env 0 2 = _
    unfold requestLoop
    rw [henv0]
    simp [t0, s1, hd1, hd2]
  · intro env2
    exact requestLoop_attempts_le 2 env2 0

/-- Witness for C2: three consecutive 5xx failures exhaust the default
budget with delays 1000 ms and 2000 ms and surface the third failure. -/
theorem request_retry_exhaustion_witness :
    request HttpMethod.get c2Env defaultRetries
      = ⟨Except.error (c2Error 2), 3, [1000, 2000]⟩ :=
  (request_retry_exhaustion c2Env (c2Error 0) (c2Error 1) (c2Error 2)
    rfl rfl rfl
    (Or.inr (Or.inr ⟨500, by decide, by omega⟩))
    (Or.inr (Or.inr ⟨501, by decide, by omega⟩))
    (Or.inr (Or.inr ⟨502, by decide, by omega⟩))).1

/-- Claim C3, counterexample: stripping is not idempotent, so a path that
begins with a double slash does not address the same URL as the same path
with one slash removed. -/
theorem requestUrl_double_slash_counterexample :
    requestUrl "123" "//extra" ≠ requestUrl "123" (("//extra" : String).drop 1) := by
  decide

/-- Claim C3, amended: for a path with a leading slash the URL is
`/{administrationId}/` followed by the path minus its first character —
exactly one slash is stripped, so a path beginning with a double slash keeps
its second slash — and the call agrees with the slash-free call only when
the stripped path does not itself begin with a slash. -/
theorem requestUrl_single_slash_normalization
    (admin p : String) (h : startsWithSlash p = true) :
    requestUrl admin p = "/" ++ admin ++ "/" ++ p.drop 1
    ∧ (startsWithSlash (p.drop 1) = false →
        requestUrl admin p = requestUrl admin (p.drop 1)) := by
  constructor
  · unfold requestUrl normalizedPath
    rw [if_pos h]
  · intro h2
    unfold requestUrl normalizedPath
    rw [if_pos h, if_neg (by simp [h2])]

/-- Witness for the amended C3 at the path `/contacts`. -/
theorem requestUrl_single_slash_normalization_witness :
    requestUrl "123" "/contacts"
      = "/" ++ "123" ++ "/" ++ ("/contacts" : String).drop 1 :=
  (requestUrl_single_slash_normalization "123" "/contacts" (by decide)).1

/-- The translated `Math.ceil(M / k)` is exactly the ceiling: it is the
least `t` with `M ≤ k * t`, pinned here by `M ≤ k*t < M + k`. -/
theorem ceil_div_char (M k : Nat) (hk : 1 ≤ k) :
    M ≤ k * ((M + k - 1) / k) ∧ k * ((M + k - 1) / k) < M + k := by
  have h1 := Nat.div_add_mod (M + k - 1) k
  have h2 : (M + k - 1) % k < k := Nat.mod_lt _ (by omega)
  obtain ⟨a, ha⟩ : ∃ a, k * ((M + k - 1) / k) = a := ⟨_, rfl⟩
  rw [ha] at h1 ⊢
  omega

/-- Claim C4: with both `page = p ≥ 1` and `perPage = k ≥ 1` supplied, a
list operation returns the pure slice `[(p−1)k, (p−1)k + k)` of the
filter-applied set of size `M` with `totalPages = ⌈M/k⌉` (characterized by
`M ≤ k·totalPages < M + k`), the slice being empty whenever `(p−1)k ≥ M`;
with at most one of the two supplied, the filter-applied list is returned
unpaginated. Stated for `listProjects` and for the plain (unfiltered) mode
of `listContacts`. -/
theorem pagination_law
    (options : ProjectOptions) (projects : List Project)
    (copts : ContactOptions) (allContacts : List Contact)
    (filterEndpoint : List (String × String) → List Contact)
    (p k : Nat)
    (hpp : options.page = some p) (hpk : options.perPage = some k)
    (hp : 1 ≤ p) (hk : 1 ≤ k)
    (hcp : copts.page = some p) (hck : copts.perPage = some k)
    (hnf : truthyStr copts.filter = false)
    (hnq : truthyStr copts.query = false)
    (hna : truthyBool copts.include_archived = false)
    (hnt : truthyStr copts.todo = false) :
    (listProjects options projects
      = ListResult.paginated
          (((filterProjectsByState options.state projects).drop
              ((p - 1) * k)).take k)
          p k (filterProjectsByState options.state projects).length
          (((filterProjectsByState options.state projects).length + k - 1)
            / k))
    ∧ (filterProjectsByState options.state projects).length
        ≤ k * (((filterProjectsByState options.state projects).length + k - 1)
            / k)
    ∧ k * (((filterProjectsByState options.state projects).length + k - 1)
            / k)
        < (filterProjectsByState options.state projects).length + k
    ∧ ((filterProjectsByState options.state projects).length ≤ (p - 1) * k →
        ((filterProjectsByState options.state projects).drop
            ((p - 1) * k)).take k = [])
    ∧ (∀ options2 : ProjectOptions,
        options2.page = none ∨ options2.perPage = none →
        listProjects options2 projects
          = ListResult.plain (filterProjectsByState options2.state projects))
    ∧ (listContacts copts allContacts filterEndpoint
        = ContactsResult.paginatedRes
            ((allContacts.drop ((p - 1) * k)).take k)
            p k allContacts.length ((allContacts.length + k - 1) / k))
    ∧ (∀ copts2 : ContactOptions,
        truthyStr copts2.filter = false → truthyStr copts2.query = false →
        truthyBool copts2.include_archived = false →
        truthyStr copts2.todo = false →
        copts2.page = none ∨ copts2.perPage = none →
        listContacts copts2 allContacts filterEndpoint
          = ContactsResult.plainRes allContacts) := by
  have hcond : (p != 0 && k != 0) = true := by
    simp only [Bool.and_eq_true, bne_iff_ne, ne_eq]
    omega
  refine ⟨?_, (ceil_div_char _ k hk).1, (ceil_div_char _ k hk).2, ?_, ?_, ?_, ?_⟩
  · simp only [listProjects, hpp, hpk]
    rw [if_pos hcond]
  · intro hle
    rw [List.drop_eq_nil_of_le hle, List.take_nil]
  · intro options2 h2
    rcases h2 with h2 | h2
    · cases hq : options2.perPage <;> simp [listProjects, h2, hq]
    · cases hq : options2.page <;> simp [listProjects, h2, hq]
  · simp only [listContacts, hnf, hnq, hna, hnt, Bool.or_self, Bool.false_or,
      Bool.if_false_left, Bool.and_self]
    simp only [hcp, hck]
    rw [if_neg (by simp), if_pos hcond]
  · intro copts2 f2 q2 a2 t2 h2
    rcases h2 with h2 | h2
    · cases hq : copts2.perPage <;>
        simp [listContacts, f2, q2, a2, t2, h2, hq]
    · cases hq : copts2.page <;>
        simp [listContacts, f2, q2, a2, t2, h2, hq]

/-- Concrete projects for the pagination witness. -/
def c4Projects : List Project :=
  [⟨"p1", "active"⟩, ⟨"p2", "archived"⟩, ⟨"p3", "active"⟩]

/-- Page 2, two items per page, no state filter. -/
def c4ProjectOptions : ProjectOptions := ⟨some 2, some 2, none⟩

/-- Concrete contacts for the pagination witness. -/
def c4Contacts : List Contact :=
  [⟨"c1", none, none, none, none, none, none⟩,
   ⟨"c2", none, none, none, none, none, none⟩,
   ⟨"c3", none, none, none, none, none, none⟩]

/-- Page 2, two items per page, no filter options supplied. -/
def c4ContactOptions : ContactOptions := ⟨some 2, some 2, none, none, none, none⟩

/-- A filter endpoint that is never consulted in plain mode. -/
def c4FilterEndpoint : List (String × String) → List Contact := fun _ => []

/-- Witness for C4: page 2 of 3 items at 2 per page is the final singleton
slice with 2 total pages, for projects and for contacts. -/
theorem pagination_law_witness :
    listProjects c4ProjectOptions c4Projects
      = ListResult.paginated [⟨"p3", "active"⟩] 2 2 3 2
    ∧ listContacts c4ContactOptions c4Contacts c4FilterEndpoint
      = ContactsResult.paginatedRes
          [⟨"c3", none, none, none, none, none, none⟩] 2 2 3 2 := by
  have h := pagination_law c4ProjectOptions c4Projects c4ContactOptions
    c4Contacts c4FilterEndpoint 2 2 rfl rfl (by decide) (by decide) rfl rfl
    (by decide) (by decide) (by decide) (by decide)
  exact ⟨h.1.trans (by decide), h.2.2.2.2.2.1.trans (by decide)⟩

/-- Claim C9, counterexample: at id "42" over the empty collection,
`getProject` does fail, but with a plain untyped `Error` — not with the
typed `MoneybirdResourceNotFoundError` (its `mbKind` is `none`, and
`isMoneybirdError` rejects it). -/
theorem getProject_untyped_error_counterexample :
    getProject "42" [] = Except.error (projectNotFoundError "42")
    ∧ isMoneybirdError (projectNotFoundError "42") = false
    ∧ (projectNotFoundError "42").mbKind ≠ some MbKind.notFound :=
  ⟨rfl, rfl, by decide⟩

/-- Claim C9, amended: for each resource without a dedicated single-item
endpoint, `get(id)` scans the fetched collection and fails — with a plain
untyped `Error` whose message names the resource and the id, not with the
(unused) typed `MoneybirdResourceNotFoundError` — exactly when no fetched
entity has the requested id; when one exists, the first match is returned. -/
theorem collection_scan_not_found
    (id : String) (projects : List Project) (products : List Product)
    (accounts : List FinancialAccount) (entries : List TimeEntry) :
    (getProject id projects = Except.error (projectNotFoundError id)
      ↔ ∀ proj ∈ projects, proj.id ≠ id)
    ∧ (∀ proj, projects.find? (fun x => x.id == id) = some proj →
        getProject id projects = Except.ok proj)
    ∧ isMoneybirdError (projectNotFoundError id) = false
    ∧ (getProduct id products = Except.error (productNotFoundError id)
      ↔ ∀ prod ∈ products, prod.id ≠ id)
    ∧ (∀ prod, products.find? (fun x => x.id == id) = some prod →
        getProduct id products = Except.ok prod)
    ∧ isMoneybirdError (productNotFoundError id) = false
    ∧ (getFinancialAccount id accounts
        = Except.error (financialAccountNotFoundError id)
      ↔ ∀ acc ∈ accounts, acc.id ≠ id)
    ∧ (∀ acc, accounts.find? (fun x => x.id == id) = some acc →
        getFinancialAccount id accounts = Except.ok acc)
    ∧ isMoneybirdError (financialAccountNotFoundError id) = false
    ∧ (getTimeEntry id entries = Except.error (timeEntryNotFoundError id)
      ↔ ∀ entry ∈ entries, entry.id ≠ id)
    ∧ (∀ entry, entries.find? (fun x => x.id == id) = some entry →
        getTimeEntry id entries = Except.ok entry)
    ∧ isMoneybirdError (timeEntryNotFoundError id) = false := by
  refine ⟨?_, ?_, rfl, ?_, ?_, rfl, ?_, ?_, rfl, ?_, ?_, rfl⟩
  · unfold getProject
    cases h : projects.find? (fun proj => proj.id == id) with
    | some x =>
        refine iff_of_false (by simp) ?_
        intro hall
        have hmem := List.mem_of_find?_eq_some h
        have hfx := List.find?_some h
        rw [beq_iff_eq] at hfx
        exact hall x hmem hfx
    | none =>
        refine iff_of_true rfl ?_
        rw [List.find?_eq_none] at h
        intro x hx
        simpa using h x hx
  · intro proj hf
    unfold getProject
    rw [hf]
  · unfold getProduct
    cases h : products.find? (fun prod => prod.id == id) with
    | some x =>
        refine iff_of_false (by simp) ?_
        intro hall
        have hmem := List.mem_of_find?_eq_some h
        have hfx := List.find?_some h
        rw [beq_iff_eq] at hfx
        exact hall x hmem hfx
    | none =>
        refine iff_of_true rfl ?_
        rw [List.find?_eq_none] at h
        intro x hx
        simpa using h x hx
  · intro prod hf
    unfold getProduct
    rw [hf]
  · unfold getFinancialAccount
    cases h : accounts.find? (fun acc => acc.id == id) with
    | some x =>
        refine iff_of_false (by simp) ?_
        intro hall
        have hmem := List.mem_of_find?_eq_some h
        have hfx := List.find?_some h
        rw [beq_iff_eq] at hfx
        exact hall x hmem hfx
    | none =>
        refine iff_of_true rfl ?_
        rw [List.find?_eq_none] at h
        intro x hx
        simpa using h x hx
  · intro acc hf
    unfold getFinancialAccount
    rw [hf]
  · unfold getTimeEntry
    cases h : entries.find? (fun entry => entry.id == id) with
    | some x =>
        refine iff_of_false (by simp) ?_
        intro hall
        have hmem := List.mem_of_find?_eq_some h
        have hfx := List.find?_some h
        rw [beq_iff_eq] at hfx
        exact hall x hmem hfx
    | none =>
        refine iff_of_true rfl ?_
        rw [List.find?_eq_none] at h
        intro x hx
        simpa using h x hx
  · intro entry hf
    unfold getTimeEntry
    rw [hf]

/-- Witness for the amended C9: a present id is returned, an absent id
fails. -/
theorem collection_scan_not_found_witness :
    getProject "7" [⟨"7", "active"⟩] = Except.ok ⟨"7", "active"⟩
    ∧ getProduct "42" [] = Except.error (productNotFoundError "42") :=
  ⟨(collection_scan_not_found "7" [⟨"7", "active"⟩] [] [] []).2.1
      ⟨"7", "active"⟩ (by decide),
   (collection_scan_not_found "42" [] [] [] []).2.2.2.1.mpr (by simp)⟩

/-- One unfolding step of the chunking loop on a nonempty list. -/
theorem chunkPieces_cons {α : Type} (maxSize : Nat) (l : List α)
    (hm : maxSize ≠ 0) (hl : l ≠ []) :
    chunkPieces maxSize l
      = l.take maxSize :: chunkPieces maxSize (l.drop maxSize) := by
  conv_lhs => rw [chunkPieces.eq_def]
  rw [dif_neg hm, dif_neg (by simp [hl])]

/-- Claim C5: the `list_contacts` tool returns all items when there are at
most 50, and exactly the first 50 — wrapped in a truncation notice whose
text contains the total count, the number 50, and ends with the
use-pagination instruction — when there are more. -/
theorem chunk_threshold_law (contacts : List Contact)
    (stringify : List FormattedContact → String) :
    (contacts.length ≤ 50 →
      handleListContacts contacts stringify
        = ⟨[stringify (contacts.map formatContact)], false⟩)
    ∧ (50 < contacts.length →
      handleListContacts contacts stringify
        = ⟨[truncNotice contacts.length 50
             (stringify ((contacts.map formatContact).take 50))], false⟩
      ∧ ((contacts.map formatContact).take 50).length = 50
      ∧ (∃ t, truncNotice contacts.length 50
            (stringify ((contacts.map formatContact).take 50))
          = "Retrieved " ++ (toString contacts.length ++ t))
      ∧ (∃ s t, truncNotice contacts.length 50
            (stringify ((contacts.map formatContact).take 50))
          = s ++ ("50" ++ t))
      ∧ (∃ s, truncNotice contacts.length 50
            (stringify ((contacts.map formatContact).take 50))
          = s
            ++ "\n\n(Response truncated for stability. Use pagination to see more.)")) := by
  have hlenmap : (contacts.map formatContact).length = contacts.length :=
    List.length_map _ _
  constructor
  · intro hle
    have hone : chunkResponse (contacts.map formatContact) 50
        = [contacts.map formatContact] := by
      unfold chunkResponse
      rw [if_pos (by rw [hlenmap]; exact hle)]
    simp only [handleListContacts, hone, List.length_cons, List.length_nil]
    norm_num
  · intro hgt
    have hm : (50 : Nat) ≠ 0 := by decide
    have hne : contacts.map formatContact ≠ [] := by
      apply List.ne_nil_of_length_pos
      rw [hlenmap]
      omega
    have hstep : chunkResponse (contacts.map formatContact) 50
        = (contacts.map formatContact).take 50
          :: chunkPieces 50 ((contacts.map formatContact).drop 50) := by
      unfold chunkResponse
      rw [if_neg (by rw [hlenmap]; omega)]
      exact chunkPieces_cons 50 _ hm hne
    have hdne : (contacts.map formatContact).drop 50 ≠ [] := by
      apply List.ne_nil_of_length_pos
      rw [List.length_drop, hlenmap]
      omega
    have htail : chunkPieces 50 ((contacts.map formatContact).drop 50)
        = ((contacts.map formatContact).drop 50).take 50
          :: chunkPieces 50 (((contacts.map formatContact).drop 50).drop 50) :=
      chunkPieces_cons 50 _ hm hdne
    have htake : ((contacts.map formatContact).take 50).length = 50 := by
      rw [List.length_take, hlenmap]
      omega
    refine ⟨?_, htake, ?_, ?_, ?_⟩
    · simp only [handleListContacts, hstep, htail]
      rw [if_pos (by simp)]
      simp [hlenmap, htake]
    · exact ⟨" contacts. Showing first "
        ++ (toString (50 : Nat) ++ (":\n\n"
        ++ (stringify ((contacts.map formatContact).take 50)
        ++ "\n\n(Response truncated for stability. Use pagination to see more.)"))),
        rfl⟩
    · refine ⟨"Retrieved "
        ++ (toString contacts.length ++ " contacts. Showing first "),
        ":\n\n" ++ (stringify ((contacts.map formatContact).take 50)
          ++ "\n\n(Response truncated for stability. Use pagination to see more.)"),
        ?_⟩
      unfold truncNotice
      rw [show toString (50 : Nat) = "50" by decide]
      simp [String.append_assoc]
    · refine ⟨"Retrieved " ++ (toString contacts.length
        ++ (" contacts. Showing first " ++ (toString (50 : Nat)
        ++ (":\n\n" ++ stringify ((contacts.map formatContact).take 50))))),
        ?_⟩
      unfold truncNotice
      simp [String.append_assoc]

/-- A concrete contact family for the chunking witness. -/
def c5Contact (n : Nat) : Contact :=
  ⟨"id" ++ toString n, none, none, none, none, none, none⟩

/-- Two contacts: below the threshold. -/
def c5Small : List Contact := [c5Contact 1, c5Contact 2]

/-- Sixty contacts: above the threshold. -/
def c5Big : List Contact := (List.range 60).map c5Contact

/-- A stand-in for `JSON.stringify`. -/
def c5Stringify : List FormattedContact → String := fun l => toString l.length

/-- Witness for C5: two contacts pass through whole, sixty are truncated to
the first fifty with the notice. -/
theorem chunk_threshold_law_witness :
    handleListContacts c5Small c5Stringify
      = ⟨[c5Stringify (c5Small.map formatContact)], false⟩
    ∧ handleListContacts c5Big c5Stringify
      = ⟨[truncNotice c5Big.length 50
           (c5Stringify ((c5Big.map formatContact).take 50))], false⟩ :=
  ⟨(chunk_threshold_law c5Small c5Stringify).1 (by decide),
   ((chunk_threshold_law c5Big c5Stringify).2 (by decide)).1⟩

/-- Claim C6: whenever any of `filter`, `query`, `include_archived`, `todo`
is supplied (truthy), `listContacts` bypasses the plain endpoint and issues
a GET to `contacts/filter` with the supplied values — plus `page` and
`per_page` when given — as query parameters, the filter string verbatim, and
returns `filtered: true` with `filterCriteria` echoing the options. -/
theorem contacts_filter_mode
    (options : ContactOptions) (allContacts : List Contact)
    (filterEndpoint : List (String × String) → List Contact)
    (h : truthyStr options.filter = true ∨ truthyStr options.query = true
      ∨ truthyBool options.include_archived = true
      ∨ truthyStr options.todo = true) :
    listContacts options allContacts filterEndpoint
      = ContactsResult.filteredRes
          ⟨"get", "contacts/filter", buildFilterParams options⟩
          (filterEndpoint (buildFilterParams options)) true options
    ∧ (∀ f, options.filter = some f → f ≠ "" →
        ("filter", f) ∈ buildFilterParams options)
    ∧ (∀ q, options.query = some q → q ≠ "" →
        ("query", q) ∈ buildFilterParams options)
    ∧ (options.include_archived = some true →
        ("include_archived", "true") ∈ buildFilterParams options)
    ∧ (∀ t, options.todo = some t → t ≠ "" →
        ("todo", t) ∈ buildFilterParams options)
    ∧ (∀ p, options.page = some p → p ≠ 0 →
        ("page", toString p) ∈ buildFilterParams options)
    ∧ (∀ k, options.perPage = some k → k ≠ 0 →
        ("per_page", toString k) ∈ buildFilterParams options) := by
  have hcond : (truthyStr options.filter || truthyStr options.query
      || truthyBool options.include_archived
      || truthyStr options.todo) = true := by
    rcases h with h | h | h | h <;> simp [h]
  refine ⟨?_, ?_, ?_, ?_, ?_, ?_, ?_⟩
  · simp only [listContacts, hcond, if_true]
  · intro f hf hne
    simp [buildFilterParams, natParam, strParam, boolParam, hf, hne]
  · intro q hq hne
    simp [buildFilterParams, natParam, strParam, boolParam, hq, hne]
  · intro ha
    simp [buildFilterParams, natParam, strParam, boolParam, ha]
  · intro t ht hne
    simp [buildFilterParams, natParam, strParam, boolParam, ht, hne]
  · intro p hp hne
    simp [buildFilterParams, natParam, strParam, boolParam, hp, hne]
  · intro k hk hne
    simp [buildFilterParams, natParam, strParam, boolParam, hk, hne]

/-- The options of the C6 witness: a verbatim filter string plus server-side
pagination. -/
def c6Options : ContactOptions :=
  ⟨some 1, some 25, none, some "created_after:2023-01-01 00:00:00 UTC",
    none, none⟩

/-- A filter endpoint for the C6 witness. -/
def c6FilterEndpoint : List (String × String) → List Contact := fun _ => []

/-- Witness for C6: a `filter`-only call goes to the filter endpoint and its
filter string rides along verbatim. -/
theorem contacts_filter_mode_witness :
    listContacts c6Options [] c6FilterEndpoint
      = ContactsResult.filteredRes
          ⟨"get", "contacts/filter", buildFilterParams c6Options⟩
          (c6FilterEndpoint (buildFilterParams c6Options)) true c6Options
    ∧ ("filter", "created_after:2023-01-01 00:00:00 UTC")
        ∈ buildFilterParams c6Options :=
  ⟨(contacts_filter_mode c6Options [] c6FilterEndpoint
      (Or.inl (by decide))).1,
   (contacts_filter_mode c6Options [] c6FilterEndpoint
      (Or.inl (by decide))).2.1 _ rfl (by decide)⟩

/-- Claim C7: a string `data` argument of `moneybird_request` is parsed as
JSON and the parsed value forwarded; an unparsable string is forwarded
unchanged; non-string bodies pass through untouched. -/
theorem moneybird_request_body_parsing
    (parseJson : String → Option JsValue) (method : HttpMethod)
    (path : String) (s : String) :
    (∀ v, parseJson s = some v →
      handleMoneybirdRequest parseJson method path (some (JsValue.str s))
        = (method, path, some v))
    ∧ (parseJson s = none →
      handleMoneybirdRequest parseJson method path (some (JsValue.str s))
        = (method, path, some (JsValue.str s)))
    ∧ (∀ reqData : Option JsValue, (∀ t, reqData ≠ some (JsValue.str t)) →
      handleMoneybirdRequest parseJson method path reqData
        = (method, path, reqData)) := by
  refine ⟨?_, ?_, ?_⟩
  · intro v hv
    simp [handleMoneybirdRequest, processRequestData, hv]
  · intro hv
    simp [handleMoneybirdRequest, processRequestData, hv]
  · intro reqData hnd
    cases reqData with
    | none => rfl
    | some v =>
        cases v with
        | str t => exact absurd rfl (hnd t)
        | null => rfl
        | bool b => rfl
        | num n => rfl
        | arr elems => rfl
        | obj fields => rfl

/-- A `JSON.parse` stand-in that succeeds with the number 123. -/
def c7ParseOk : String → Option JsValue := fun _ => some (JsValue.num 123)

/-- A `JSON.parse` stand-in that throws. -/
def c7ParseFail : String → Option JsValue := fun _ => none

/-- Witness for C7: a parsable string body is replaced by its parse, an
unparsable one is forwarded as the raw string. -/
theorem moneybird_request_body_parsing_witness :
    handleMoneybirdRequest c7ParseOk HttpMethod.post "/contacts"
        (some (JsValue.str "123"))
      = (HttpMethod.post, "/contacts", some (JsValue.num 123))
    ∧ handleMoneybirdRequest c7ParseFail HttpMethod.post "/contacts"
        (some (JsValue.str "not json"))
      = (HttpMethod.post, "/contacts", some (JsValue.str "not json")) :=
  ⟨(moneybird_request_body_parsing c7ParseOk HttpMethod.post "/contacts"
      "123").1 (JsValue.num 123) rfl,
   (moneybird_request_body_parsing c7ParseFail HttpMethod.post "/contacts"
      "not json").2.1 rfl⟩

/-- Claim C8: the dispatch handler always returns a one-block envelope; an
unknown tool name yields the descriptive `Tool not found` error envelope
with `isError: true`, and any error thrown by a tool body yields an
`isError: true` envelope — no exception escapes the handler. -/
theorem unknown_tool_error_envelope (toolName : String)
    (runTool : Except JsError String) :
    (callToolHandler toolName runTool).content.length = 1
    ∧ (toolName ∉ toolNames →
        callToolHandler toolName runTool
          = ⟨["Failed to execute " ++ toolName ++ ": "
              ++ ("Tool not found: " ++ toolName)], true⟩)
    ∧ (∀ e, runTool = Except.error e →
        (callToolHandler toolName runTool).isError = true) := by
  refine ⟨?_, ?_, ?_⟩
  · unfold callToolHandler
    by_cases hmem : toolName ∈ toolNames
    · rw [if_pos hmem]
      cases runTool with
      | ok t => rfl
      | error e => rfl
    · rw [if_neg hmem]
      rfl
  · intro hnot
    unfold callToolHandler
    rw [if_neg hnot]
    rfl
  · intro e he
    unfold callToolHandler
    by_cases hmem : toolName ∈ toolNames
    · rw [if_pos hmem, he]
    · rw [if_neg hmem]

/-- A tool body outcome for the C8 witness: a thrown plain error. -/
def c8RunTool : Except JsError String :=
  Except.error ⟨"boom", none, none, none⟩

/-- Witness for C8: an unknown name gets the error envelope, a known name
whose body throws gets `isError: true`. -/
theorem unknown_tool_error_envelope_witness :
    callToolHandler "no_such_tool" c8RunTool
      = ⟨["Failed to execute " ++ "no_such_tool" ++ ": "
          ++ ("Tool not found: " ++ "no_such_tool")], true⟩
    ∧ (callToolHandler "list_products" c8RunTool).isError = true :=
  ⟨(unknown_tool_error_envelope "no_such_tool" c8RunTool).2.1 (by decide),
   (unknown_tool_error_envelope "list_products" c8RunTool).2.2
     ⟨"boom", none, none, none⟩ rfl⟩

/-- Claim C10: once the singleton instance exists, `getClient` returns it
unchanged whatever credentials the caller passes (its result does not
depend on the params or the environment), leaves the stored state as is,
and only `resetClient` / `setClient` modify the stored instance. -/
theorem getClient_singleton_ignores_params
    (env : ProcessEnv) (params : Option ClientParams)
    (inst : MoneybirdClient) :
    getClient env params (some inst) = Except.ok (inst, some inst)
    ∧ (∀ (env2 : ProcessEnv) (params2 : Option ClientParams),
        getClient env2 params2 (some inst)
          = getClient env params (some inst))
    ∧ resetClient (some inst) = none
    ∧ (∀ inst2, setClient inst2 (some inst) = some inst2) :=
  ⟨rfl, fun _ _ => rfl, rfl, fun _ => rfl⟩
